import Mathlib

/-!
# MinstrelsToolkit — room state machine verification

Shallow embedding of the server-side room/playback state machine and the
mini-app reducers of MinstrelsToolkit (`src/server/websocket.ts`, imported by
the repository as the websocket portion of `src/server/services/asset.ts`,
together with the shared `src/server/types.ts` definitions).

Conventions of the embedding:
* JavaScript `Map`/`Record` values are association lists or `String → Option _`
  maps; `Set` values are duplicate-free lists.
* `Date.now()` and `crypto.randomUUID()` are inputs (`Env.now`, `Env.newId`).
* `Math.floor(Math.random() * n)` is modelled as `r % n` for an arbitrary
  natural `r` supplied by `Env.rand` (any value in `[0, n-1]` is reachable,
  which is exactly the guarantee `Math.random ∈ [0,1)` gives; for `n = 0`
  JavaScript yields `0` and the model uses `r % 1 = 0` via `jsRandFloor`).
* The external playlist store `playlistService.getPlaylist` is the input map
  `Env.getPlaylist`.
* Numeric JSON fields (seek positions, volumes) are modelled as `Int`; the
  verified claims only involve the value `0` and field preservation.
* Outbound traffic (`send` to the issuing socket, `broadcast` fan-out to a
  room) is reified as a list of `Effect` values in issue order.
-/

namespace Minstrels

/-- `src/server/types.ts` `DiscordUser`. -/
structure DiscordUser where
  id : String
  username : String
  avatar : Option String
  discriminator : String
  global_name : Option String
deriving DecidableEq, Repr

/-- `src/server/types.ts` `PlaybackState`, restricted to the fields the server
actually creates and maintains (`getDefaultPlaybackState` and the handlers).
The interface additionally declares `playlistType` and `layerVolumes`, but no
server code path ever initializes or writes either field; this absence is
itself one of the verified findings (claim C9). -/
structure PlaybackState where
  assetId : Option String
  playing : Bool
  currentTime : Int
  timestamp : Nat
  playlistId : Option String
  playlistIndex : Int
  playlistLength : Nat
  loop : Bool
  shuffle : Bool
  nextAssetId : Option String
deriving DecidableEq, Repr

/-- `src/server/types.ts` `Playlist`, restricted to the field the room state
machine reads (`assetIds`); name/type/volume metadata never flows into the
room state. -/
structure Playlist where
  assetIds : List String
deriving DecidableEq, Repr

/-- Dice-roller log record (the object literal built by `reduceDiceRoller`). -/
structure DiceEntry where
  id : String
  oderId : String
  username : String
  dice : String
  result : Int
  timestamp : Nat
deriving DecidableEq, Repr

/-- Dice-roller app state: `{ history: [...] }`. -/
structure DiceState where
  history : List DiceEntry
deriving DecidableEq, Repr

/-- Media-display app state: `{ assetId: string | null }`. -/
structure MediaDisplayState where
  assetId : Option String
deriving DecidableEq, Repr

inductive QuizPhase where
  | idle
  | question
  | results
deriving DecidableEq, Repr

/-- `QuizAnswer` from the server source. -/
structure QuizAnswer where
  oderId : String
  username : String
  answerIndex : Int
  timestamp : Nat
deriving DecidableEq, Repr

/-- `QuizState` from the server source. -/
structure QuizState where
  phase : QuizPhase
  question : String
  options : List String
  correctIndex : Int
  answers : List QuizAnswer
  timeLimit : Int
  startTime : Nat
deriving DecidableEq, Repr

inductive CardSuit where
  | hearts
  | diamonds
  | clubs
  | spades
deriving DecidableEq, Repr

/-- `BlackjackCard` from the server source. -/
structure BlackjackCard where
  suit : CardSuit
  rank : String
  value : Nat
deriving DecidableEq, Repr

inductive BlackjackStatus where
  | playing
  | stand
  | bust
  | blackjack
deriving DecidableEq, Repr

/-- `BlackjackPlayer` from the server source. -/
structure BlackjackPlayer where
  oderId : String
  username : String
  hand : List BlackjackCard
  status : BlackjackStatus
deriving DecidableEq, Repr

inductive BlackjackPhase where
  | idle
  | joining
  | playing
  | dealer
  | results
deriving DecidableEq, Repr

structure BlackjackDealer where
  hand : List BlackjackCard
  hidden : Bool
deriving DecidableEq, Repr

/-- `BlackjackState` from the server source. -/
structure BlackjackState where
  phase : BlackjackPhase
  players : List BlackjackPlayer
  dealer : BlackjackDealer
  currentPlayerIndex : Nat
  deck : List BlackjackCard
deriving DecidableEq, Repr

/-- The per-app opaque state blob (`unknown` in the source).  Each built-in
reducer casts the blob to its own shape; since `handleMiniAppEnable` always
initializes an app's blob from `defaultAppStates`, the shape stored under an
app id always matches that app's reducer.  `empty` models the `{}` fallback
used for unknown app ids. -/
inductive AppStateV where
  | media (s : MediaDisplayState)
  | dice (s : DiceState)
  | quiz (s : QuizState)
  | blackjack (s : BlackjackState)
  | empty
deriving DecidableEq, Repr

/-- `src/server/types.ts` `MiniAppState`; `appStates` is the
`Record<string, unknown>` as an association list. -/
structure MiniAppState where
  enabledApps : List String
  appStates : List (String × AppStateV)
deriving DecidableEq, Repr

/-- `src/server/types.ts` `RoomState`. -/
structure RoomState where
  campaignId : String
  playback : PlaybackState
  connections : List String
  users : List (String × DiscordUser)
  playlistOrder : List String
  miniApps : MiniAppState
deriving DecidableEq, Repr

/-- `src/server/types.ts` `WebSocketData` (per-connection mutable data). -/
structure ConnState where
  id : String
  campaignId : Option String
  user : Option DiscordUser
deriving DecidableEq, Repr

/-- The module-level `rooms` map. -/
def Rooms : Type := String → Option RoomState

/-- Mini-app action payloads.  In the source `payload` is `unknown` and each
reducer casts it to the record shape it expects; the variants below are those
shapes.  A reducer reading a field from a missing/mismatched payload sees
JavaScript `undefined`, which every reducer guards with `?.`, `??` or an
explicit falsiness check before use. -/
inductive Payload where
  | assetIdP (assetId : Option String)
  | diceP (dice : String)
  | fudgeP (dice : String) (result : Int)
  | idP (id : String)
  | quizStartP (question : String) (options : List String) (correctIndex : Int)
      (timeLimit : Int)
  | answerP (answerIndex : Int)
deriving DecidableEq, Repr

inductive PlaybackCmd where
  | play
  | pause
  | seek
  | next
  | prev
deriving DecidableEq, Repr

/-- `src/server/types.ts` `ClientMessage` (the discriminated union the server
switch dispatches on).  Note that the union includes `layer-volume` and
`layer-fade-to`, which the client sends (`useWebSocket.ts`) but for which the
server `switch` has no case. -/
inductive ClientMessage where
  | identify (user : DiscordUser)
  | joinCampaign (campaignId : String)
  | leaveCampaign
  | playbackCommand (command : PlaybackCmd) (time : Option Int)
  | assetSelect (assetId : Option String)
  | playlistPlay (playlistId : String)
  | playlistStop
  | playlistSettings (loop : Option Bool) (shuffle : Option Bool)
  | queueAsset (assetId : String)
  | queueJump (assetId : String)
  | layerVolume (assetId : String) (volume : Int)
  | layerFadeTo (assetId : String) (duration : Option Int)
  | miniappEnable (appId : String)
  | miniappDisable (appId : String)
  | miniappAction (appId : String) (action : String) (payload : Option Payload)
  | reloadPlayers
deriving DecidableEq, Repr

/-- `src/server/types.ts` `ServerMessage`. -/
inductive ServerMessage where
  | campaignJoined (campaignId : String) (playback : PlaybackState)
      (users : List DiscordUser) (miniApps : MiniAppState)
  | playbackState (playback : PlaybackState)
  | queueUpdated (playback : PlaybackState)
  | assetSelected (assetId : Option String)
  | assetsUpdated (campaignId : String)
  | playlistsUpdated (campaignId : String)
  | userJoined (user : DiscordUser)
  | userLeft (userId : String)
  | errorMsg (message : String)
  | miniappState (miniApps : MiniAppState)
  | miniappUpdated (appId : String) (state : AppStateV)
  | reload
deriving DecidableEq, Repr

/-- Outbound traffic of one message dispatch: `send(ws, …)` to the issuing
connection, or `broadcast(campaignId, …, excludeConnectionId?)` fan-out. -/
inductive Effect where
  | toSender (msg : ServerMessage)
  | broadcastE (campaignId : String) (msg : ServerMessage)
      (excludeConnectionId : Option String)
deriving DecidableEq, Repr

/-- Ambient inputs of one dispatch: the wall clock, the random source, the
UUID generator and the external playlist store. -/
structure Env where
  now : Nat
  rand : Nat → Nat
  newId : String
  getPlaylist : String → String → Option Playlist

/-- `Math.floor(Math.random() * n)`: an arbitrary value in `[0, n-1]`
(`0` when `n = 0`), the concrete value being chosen by the random source. -/
def jsRandFloor (r : Nat) (n : Nat) : Nat := r % max n 1

/-- JavaScript `Array.prototype.indexOf`: first index of `a`, `-1` if absent. -/
def indexOfJS (l : List String) (a : String) : Int :=
  match l with
  | [] => -1
  | x :: t =>
      if x = a then 0
      else
        let r := indexOfJS t a
        if r < 0 then -1 else r + 1

/-- Swap the elements at positions `i` and `j`
(`[x[i], x[j]] = [x[j], x[i]]`); out-of-range positions leave the list
unchanged (the shuffle loop only produces in-range positions). -/
def swapJS (l : List α) (i j : Nat) : List α :=
  match l.get? i, l.get? j with
  | some a, some b => (l.set i b).set j a
  | _, _ => l

/-- Fisher–Yates loop body of `shuffleArray`: `i` walks from `length - 1`
down to `1`, swapping position `i` with position `rand i % (i+1)`. -/
def shuffleGo (rand : Nat → Nat) : Nat → List α → List α
  | 0, acc => acc
  | i + 1, acc => shuffleGo rand i (swapJS acc (i + 1) (rand (i + 1) % (i + 2)))

/-- `shuffleArray` from the server source. -/
def shuffleArray (rand : Nat → Nat) (l : List α) : List α :=
  shuffleGo rand (l.length - 1) l

/-- `getDefaultPlaybackState()`. -/
def getDefaultPlaybackState (now : Nat) : PlaybackState :=
  { assetId := none
    playing := false
    currentTime := 0
    timestamp := now
    playlistId := none
    playlistIndex := -1
    playlistLength := 0
    loop := false
    shuffle := false
    nextAssetId := none }

/-- `getDefaultMiniAppState()`. -/
def getDefaultMiniAppState : MiniAppState :=
  { enabledApps := [], appStates := [] }

/-- Association-list update mirroring `record[key] = value`. -/
def setAssoc : List (String × α) → String → α → List (String × α)
  | [], k, v => [(k, v)]
  | (k', v') :: t, k, v =>
      if k' = k then (k, v) :: t else (k', v') :: setAssoc t k v

/-- Association-list lookup mirroring `record[key]`. -/
def lookupAssoc : List (String × α) → String → Option α
  | [], _ => none
  | (k', v') :: t, k => if k' = k then some v' else lookupAssoc t k

/-- Association-list delete mirroring `map.delete(key)`. -/
def removeAssoc : List (String × α) → String → List (String × α)
  | [], _ => []
  | (k', v') :: t, k => if k' = k then t else (k', v') :: removeAssoc t k

/-- Point update of the `rooms` map. -/
def updateRooms (rooms : Rooms) (campaignId : String) (room : RoomState) :
    Rooms :=
  fun c => if c = campaignId then some room else rooms c

/-- Deletion from the `rooms` map (`rooms.delete(campaignId)`). -/
def deleteRoom (rooms : Rooms) (campaignId : String) : Rooms :=
  fun c => if c = campaignId then none else rooms c

/-- Common tail of `advancePlaylist` once a valid index is chosen (source
lines setting `playlistIndex`, `assetId`, `currentTime`, `timestamp`). -/
def setPlaylistPos (room : RoomState) (newIndex : Int) (now : Nat) :
    RoomState :=
  { room with
    playback :=
      { room.playback with
        playlistIndex := newIndex
        assetId := room.playlistOrder.get? newIndex.toNat
        currentTime := 0
        timestamp := now } }

/-- Queued-next branch of `advancePlaylist` (`direction === 1 &&
pb.nextAssetId`): the queued asset becomes current, the queue is cleared, the
index is looked up in the realized order for display purposes. -/
def consumeQueued (room : RoomState) (nextId : String) (now : Nat) :
    RoomState :=
  let idx := indexOfJS room.playlistOrder nextId
  { room with
    playback :=
      { room.playback with
        assetId := some nextId
        nextAssetId := none
        playlistIndex := if 0 ≤ idx then idx else room.playback.playlistIndex
        currentTime := 0
        timestamp := now } }

/-- Normal-sequencing branch of `advancePlaylist`. -/
def advanceNormal (room : RoomState) (direction : Int) (now : Nat) :
    RoomState :=
  let pb := room.playback
  let order := room.playlistOrder
  let newIndex := pb.playlistIndex + direction
  if (order.length : Int) ≤ newIndex then
    if pb.loop then
      setPlaylistPos room 0 now
    else
      { room with playback := { pb with playing := false, timestamp := now } }
  else if newIndex < 0 then
    if pb.loop then
      setPlaylistPos room ((order.length : Int) - 1) now
    else
      setPlaylistPos room 0 now
  else
    setPlaylistPos room newIndex now

/-- `advancePlaylist(room, direction)` from the server source.  (JavaScript
truthiness note: a queued empty-string asset id would be falsy; asset ids are
UUIDs, and the model treats any present id as set.) -/
def advancePlaylist (room : RoomState) (direction : Int) (now : Nat) :
    RoomState :=
  if room.playlistOrder.length = 0 then room
  else
    match room.playback.nextAssetId with
    | some nextId =>
        if direction = 1 then consumeQueued room nextId now
        else advanceNormal room direction now
    | none => advanceNormal room direction now

/-! ## Mini-app reducers -/

/-- `reduceMediaDisplay` from the server source. -/
def reduceMediaDisplay (s : MediaDisplayState) (action : String)
    (payload : Option Payload) : MediaDisplayState :=
  if action = "set-asset" then
    { s with
      assetId :=
        match payload with
        | some (.assetIdP a) => a
        | _ => none }
  else if action = "clear" then
    { s with assetId := none }
  else s

/-- Digit-string value, i.e. `parseInt` on a string of decimal digits. -/
def digitsVal (cs : List Char) : Nat :=
  cs.foldl (fun n c => n * 10 + (c.toNat - 48)) 0

/-- Split a character list at its first `d`. -/
def splitFirstD : List Char → Option (List Char × List Char)
  | [] => none
  | c :: t =>
      if c = 'd' then some ([], t)
      else
        match splitFirstD t with
        | some (a, b) => some (c :: a, b)
        | none => none

/-- The regex `^(\d*)d(\d+)$` of the dice roller: an optional digit count, a
literal `d`, and a non-empty digit count of sides (a match therefore contains
exactly one `d`, so splitting at the first `d` and requiring both sides to be
digits is equivalent); the empty count defaults to `1`
(`parseInt(match[1] || '1', 10)`). -/
def parseDiceSpec (s : String) : Option (Nat × Nat) :=
  match splitFirstD s.data with
  | some (a, b) =>
      if a.all Char.isDigit ∧ b.all Char.isDigit ∧ b ≠ [] then
        some (if a = [] then 1 else digitsVal a, digitsVal b)
      else none
  | none => none

/-- The roll loop `for (i = 0; i < count; i++) result += floor(random()*sides)+1`. -/
def rollResult (rand : Nat → Nat) (count : Nat) (sides : Nat) : Nat :=
  (List.range count).foldl (fun acc i => acc + (jsRandFloor (rand i) sides + 1)) 0

/-- `reduceDiceRoller` from the server source.  (The stale source comment says
"Keep last 50 rolls"; the code slices to 500.) -/
def reduceDiceRoller (s : DiceState) (action : String)
    (payload : Option Payload) (user : Option DiscordUser) (env : Env) :
    DiceState :=
  if action = "roll" then
    let dice :=
      match payload with
      | some (.diceP d) => d
      | _ => "d20"
    match parseDiceSpec dice with
    | none => s
    | some (count, sides) =>
        let entry : DiceEntry :=
          { id := env.newId
            oderId := (user.map (·.id)).getD "unknown"
            username := "GM"
            dice := dice
            result := (rollResult env.rand count sides : Int)
            timestamp := env.now }
        { s with history := (entry :: s.history).take 500 }
  else if action = "fudge" then
    match payload with
    | some (.fudgeP d r) =>
        let entry : DiceEntry :=
          { id := env.newId
            oderId := (user.map (·.id)).getD "unknown"
            username := "GM"
            dice := if d = "" then "d20" else d
            result := r
            timestamp := env.now }
        { s with history := (entry :: s.history).take 500 }
    | _ => s
  else if action = "remove" then
    match payload with
    | some (.idP i) =>
        if i = "" then s
        else { s with history := s.history.filter (fun r => r.id ≠ i) }
    | _ => s
  else if action = "clear" then
    { s with history := [] }
  else s

/-- `reduceQuiz` from the server source. -/
def reduceQuiz (s : QuizState) (action : String) (payload : Option Payload)
    (user : Option DiscordUser) (env : Env) : QuizState :=
  if action = "start-question" then
    match payload with
    | some (.quizStartP q opts correct limit) =>
        { s with
          phase := .question
          question := q
          options := opts
          correctIndex := correct
          timeLimit := limit
          startTime := env.now
          answers := [] }
    | _ => s
  else if action = "submit-answer" then
    match payload, user with
    | some (.answerP i), some u =>
        if s.phase ≠ .question then s
        else if s.answers.any (fun a => a.oderId = u.id) then s
        else
          { s with
            answers :=
              s.answers ++
                [{ oderId := u.id
                   username := u.username
                   answerIndex := i
                   timestamp := env.now }] }
    | _, _ => s
  else if action = "reveal-results" then
    if s.phase ≠ .question then s
    else { s with phase := .results }
  else if action = "reset" then
    { s with
      phase := .idle
      question := ""
      options := []
      correctIndex := 0
      answers := []
      startTime := 0 }
  else s

/-- `createDeck` from the server source. -/
def createDeck : List BlackjackCard :=
  let suits : List CardSuit := [.hearts, .diamonds, .clubs, .spades]
  let ranks : List (String × Nat) :=
    [("A", 11), ("2", 2), ("3", 3), ("4", 4), ("5", 5), ("6", 6), ("7", 7),
     ("8", 8), ("9", 9), ("10", 10), ("J", 10), ("Q", 10), ("K", 10)]
  suits.flatMap fun suit =>
    ranks.map fun rv => { suit := suit, rank := rv.1, value := rv.2 }

/-- `shuffleDeck` (the same Fisher–Yates loop as `shuffleArray`). -/
def shuffleDeck (rand : Nat → Nat) (deck : List BlackjackCard) :
    List BlackjackCard :=
  shuffleArray rand deck

/-- `calculateBlackjackHandValue`: sum with ace-as-11, then reduce aces one at
a time while the total exceeds 21. -/
def calculateBlackjackHandValue (hand : List BlackjackCard) : Nat :=
  let base := hand.foldl (fun acc c => acc + c.value) 0
  let aces := (hand.filter (fun c => c.rank = "A")).length
  reduceAces base aces
where
  reduceAces : Nat → Nat → Nat
    | v, 0 => v
    | v, a + 1 => if 21 < v then reduceAces (v - 10) a else v

/-- `drawBlackjackCard`: pop the last card.  Popping an empty deck produces
no card (the source would crash computing a hand value over `undefined`;
unreachable with the 52-card deck in play). -/
def drawBlackjackCard (deck : List BlackjackCard) :
    Option BlackjackCard × List BlackjackCard :=
  (deck.getLast?, deck.dropLast)

/-- Append a drawn card to a hand (`hand.push(draw.card)`). -/
def pushCard (hand : List BlackjackCard) (c : Option BlackjackCard) :
    List BlackjackCard :=
  match c with
  | some card => hand ++ [card]
  | none => hand

/-- The dealer auto-play loop: draw until the hand totals at least 17. -/
def dealerPlay (hand : List BlackjackCard) (deck : List BlackjackCard) :
    List BlackjackCard × List BlackjackCard :=
  if calculateBlackjackHandValue hand < 17 then
    match h : deck.getLast? with
    | some c => dealerPlay (hand ++ [c]) deck.dropLast
    | none => (hand, deck)
  else (hand, deck)
termination_by deck.length
decreasing_by
  have hne : deck ≠ [] := by
    intro hnil
    rw [hnil] at h
    simp at h
  cases deck with
  | nil => exact absurd rfl hne
  | cons x t => simp [List.dropLast]

/-- The `while (i < players.length && players[i].status !== 'playing') i++`
scan for the next unresolved player. -/
def skipResolved (players : List BlackjackPlayer) (i : Nat) : Nat :=
  if h : i < players.length then
    if (players.get ⟨i, h⟩).status ≠ .playing then skipResolved players (i + 1)
    else i
  else i
termination_by players.length - i

/-- One dealing pass over all players followed by one dealer draw (the body of
`for (round = 0; round < 2; round++)` in the `deal` action). -/
def dealPass (players : List BlackjackPlayer) (dealerHand : List BlackjackCard)
    (deck : List BlackjackCard) :
    List BlackjackPlayer × List BlackjackCard × List BlackjackCard :=
  let step :=
    players.foldl
      (fun (acc : List BlackjackPlayer × List BlackjackCard) p =>
        let draw := drawBlackjackCard acc.2
        (acc.1 ++ [{ p with hand := pushCard p.hand draw.1 }], draw.2))
      ([], deck)
  let dealerDraw := drawBlackjackCard step.2
  (step.1, pushCard dealerHand dealerDraw.1, dealerDraw.2)

/-- `reduceBlackjack` from the server source. -/
def reduceBlackjack (s : BlackjackState) (action : String)
    (user : Option DiscordUser) (env : Env) : BlackjackState :=
  if action = "start-round" then
    { s with
      phase := .joining
      players := []
      dealer := { hand := [], hidden := true }
      currentPlayerIndex := 0
      deck := shuffleDeck env.rand createDeck }
  else if action = "join" then
    match user with
    | none => s
    | some u =>
        if s.phase ≠ .joining then s
        else if s.players.any (fun p => p.oderId = u.id) then s
        else
          { s with
            players :=
              s.players ++
                [{ oderId := u.id, username := u.username, hand := [],
                   status := .playing }] }
  else if action = "deal" then
    if s.phase ≠ .joining ∨ s.players.length = 0 then s
    else
      let fresh := s.players.map fun p => { p with hand := [], status := .playing }
      let pass1 := dealPass fresh [] s.deck
      let pass2 := dealPass pass1.1 pass1.2.1 pass1.2.2
      let players :=
        pass2.1.map fun p =>
          if calculateBlackjackHandValue p.hand = 21 then
            { p with status := .blackjack }
          else p
      let currentPlayerIndex := skipResolved players 0
      if players.all (fun p => p.status ≠ .playing) then
        let dealer := dealerPlay pass2.2.1 pass2.2.2
        { s with
          phase := .results
          players := players
          dealer := { hand := dealer.1, hidden := false }
          deck := dealer.2
          currentPlayerIndex := currentPlayerIndex }
      else
        { s with
          phase := .playing
          players := players
          dealer := { hand := pass2.2.1, hidden := true }
          deck := pass2.2.2
          currentPlayerIndex := currentPlayerIndex }
  else if action = "hit" then
    match user with
    | none => s
    | some u =>
        if s.phase ≠ .playing then s
        else
          match s.players.get? s.currentPlayerIndex with
          | none => s
          | some currentPlayer =>
              if currentPlayer.oderId ≠ u.id then s
              else if currentPlayer.status ≠ .playing then s
              else
                let draw := drawBlackjackCard s.deck
                let newHand := pushCard currentPlayer.hand draw.1
                let value := calculateBlackjackHandValue newHand
                let newStatus : BlackjackStatus :=
                  if 21 < value then .bust
                  else if value = 21 then .stand
                  else .playing
                let players :=
                  s.players.mapIdx fun i p =>
                    if i = s.currentPlayerIndex then
                      { p with hand := newHand, status := newStatus }
                    else p
                let currentPlayerIndex :=
                  if newStatus ≠ .playing then
                    skipResolved players (s.currentPlayerIndex + 1)
                  else s.currentPlayerIndex
                if players.all (fun p => p.status ≠ .playing) then
                  let dealer := dealerPlay s.dealer.hand draw.2
                  { s with
                    phase := .results
                    players := players
                    dealer := { hand := dealer.1, hidden := false }
                    deck := dealer.2
                    currentPlayerIndex := currentPlayerIndex }
                else
                  { s with
                    players := players
                    deck := draw.2
                    currentPlayerIndex := currentPlayerIndex }
  else if action = "stand" then
    match user with
    | none => s
    | some u =>
        if s.phase ≠ .playing then s
        else
          match s.players.get? s.currentPlayerIndex with
          | none => s
          | some currentPlayer =>
              if currentPlayer.oderId ≠ u.id then s
              else if currentPlayer.status ≠ .playing then s
              else
                let players :=
                  s.players.mapIdx fun i p =>
                    if i = s.currentPlayerIndex then { p with status := .stand }
                    else p
                let currentPlayerIndex :=
                  skipResolved players (s.currentPlayerIndex + 1)
                if players.all (fun p => p.status ≠ .playing) then
                  let dealer := dealerPlay s.dealer.hand s.deck
                  { s with
                    phase := .results
                    players := players
                    dealer := { hand := dealer.1, hidden := false }
                    deck := dealer.2
                    currentPlayerIndex := currentPlayerIndex }
                else
                  { s with
                    players := players
                    currentPlayerIndex := currentPlayerIndex }
  else if action = "reset" then
    { s with
      phase := .idle
      players := []
      dealer := { hand := [], hidden := true }
      currentPlayerIndex := 0
      deck := [] }
  else s

/-- `defaultAppStates` from the server source. -/
def defaultAppStates (appId : String) : Option AppStateV :=
  if appId = "media-display" then some (.media { assetId := none })
  else if appId = "dice-roller" then some (.dice { history := [] })
  else if appId = "quiz" then
    some (.quiz
      { phase := .idle, question := "", options := [], correctIndex := 0,
        answers := [], timeLimit := 15, startTime := 0 })
  else if appId = "blackjack" then
    some (.blackjack
      { phase := .idle, players := [],
        dealer := { hand := [], hidden := true },
        currentPlayerIndex := 0, deck := [] })
  else none

/-- The app-specific reducer chain of `handleMiniAppAction`.  A blob whose
shape does not match the app id is returned unchanged; `handleMiniAppEnable`
always initializes blobs from `defaultAppStates`, so shapes always match. -/
def applyAppReducer (appId : String) (state : AppStateV) (action : String)
    (payload : Option Payload) (user : Option DiscordUser) (env : Env) :
    AppStateV :=
  if appId = "media-display" then
    match state with
    | .media s => .media (reduceMediaDisplay s action payload)
    | s => s
  else if appId = "dice-roller" then
    match state with
    | .dice s => .dice (reduceDiceRoller s action payload user env)
    | s => s
  else if appId = "quiz" then
    match state with
    | .quiz s => .quiz (reduceQuiz s action payload user env)
    | s => s
  else if appId = "blackjack" then
    match state with
    | .blackjack s => .blackjack (reduceBlackjack s action user env)
    | s => s
  else state

/-! ## Connection/room handlers

Each handler mirrors one `handleX` function of the server source.  Handlers
that never touch the per-connection data return the updated `rooms` map and
the outbound effects; `identify`/`join`/`leave` additionally return the
updated connection data. -/

/-- `getOrCreateRoom`. -/
def getOrCreateRoom (rooms : Rooms) (campaignId : String) (now : Nat) :
    RoomState :=
  match rooms campaignId with
  | some room => room
  | none =>
      { campaignId := campaignId
        playback := getDefaultPlaybackState now
        connections := []
        users := []
        playlistOrder := []
        miniApps := getDefaultMiniAppState }

/-- `handleIdentify`. -/
def handleIdentify (ws : ConnState) (user : DiscordUser) : ConnState :=
  { ws with user := some user }

/-- `handleLeaveCampaign`. -/
def handleLeaveCampaign (ws : ConnState) (rooms : Rooms) :
    ConnState × Rooms × List Effect :=
  match ws.campaignId with
  | none => (ws, rooms, [])
  | some campaignId =>
      match rooms campaignId with
      | none => ({ ws with campaignId := none }, rooms, [])
      | some room =>
          let room' :=
            { room with
              connections := room.connections.erase ws.id
              users :=
                match ws.user with
                | some _ => removeAssoc room.users ws.id
                | none => room.users }
          let effects :=
            match ws.user with
            | some u => [Effect.broadcastE campaignId (.userLeft u.id) none]
            | none => []
          let rooms' :=
            if room'.connections.length = 0 then deleteRoom rooms campaignId
            else updateRooms rooms campaignId room'
          ({ ws with campaignId := none }, rooms', effects)

/-- `handleJoinCampaign`. -/
def handleJoinCampaign (ws : ConnState) (rooms : Rooms) (campaignId : String)
    (env : Env) : ConnState × Rooms × List Effect :=
  let leave :=
    match ws.campaignId with
    | some _ => handleLeaveCampaign ws rooms
    | none => (ws, rooms, [])
  let ws1 := leave.1
  let rooms1 := leave.2.1
  let room := getOrCreateRoom rooms1 campaignId env.now
  let room1 :=
    { room with
      connections :=
        if ws.id ∈ room.connections then room.connections
        else room.connections ++ [ws.id]
      users :=
        match ws.user with
        | some u => setAssoc room.users ws.id u
        | none => room.users }
  let joinEffects :=
    match ws.user with
    | some u => [Effect.broadcastE campaignId (.userJoined u) (some ws.id)]
    | none => []
  ({ ws1 with campaignId := some campaignId },
   updateRooms rooms1 campaignId room1,
   leave.2.2 ++ joinEffects ++
     [Effect.toSender
       (.campaignJoined campaignId room1.playback (room1.users.map (·.2))
         room1.miniApps)])

/-- `handlePlaybackCommand`. -/
def handlePlaybackCommand (ws : ConnState) (rooms : Rooms)
    (command : PlaybackCmd) (time : Option Int) (env : Env) :
    Rooms × List Effect :=
  match ws.campaignId with
  | none => (rooms, [Effect.toSender (.errorMsg "Not in a campaign")])
  | some campaignId =>
      match rooms campaignId with
      | none => (rooms, [])
      | some room =>
          let room' :=
            match command with
            | .play =>
                { room with
                  playback :=
                    { room.playback with playing := true, timestamp := env.now } }
            | .pause =>
                { room with
                  playback :=
                    { room.playback with playing := false, timestamp := env.now } }
            | .seek =>
                match time with
                | some t =>
                    { room with
                      playback :=
                        { room.playback with
                          currentTime := t, timestamp := env.now } }
                | none => room
            | .next => advancePlaylist room 1 env.now
            | .prev => advancePlaylist room (-1) env.now
          (updateRooms rooms campaignId room',
           [Effect.broadcastE campaignId (.playbackState room'.playback) none])

/-- `handleAssetSelect`. -/
def handleAssetSelect (ws : ConnState) (rooms : Rooms)
    (assetId : Option String) (env : Env) : Rooms × List Effect :=
  match ws.campaignId with
  | none => (rooms, [Effect.toSender (.errorMsg "Not in a campaign")])
  | some campaignId =>
      match rooms campaignId with
      | none => (rooms, [])
      | some room =>
          let room' :=
            { room with
              playlistOrder := []
              playback :=
                { room.playback with
                  playlistId := none
                  playlistIndex := -1
                  playlistLength := 0
                  nextAssetId := none
                  assetId := assetId
                  playing := false
                  currentTime := 0
                  timestamp := env.now } }
          (updateRooms rooms campaignId room',
           [Effect.broadcastE campaignId (.assetSelected assetId) none,
            Effect.broadcastE campaignId (.playbackState room'.playback) none])

/-- `handlePlaylistPlay`. -/
def handlePlaylistPlay (ws : ConnState) (rooms : Rooms) (playlistId : String)
    (env : Env) : Rooms × List Effect :=
  match ws.campaignId with
  | none => (rooms, [Effect.toSender (.errorMsg "Not in a campaign")])
  | some campaignId =>
      match rooms campaignId with
      | none => (rooms, [])
      | some room =>
          match env.getPlaylist campaignId playlistId with
          | none =>
              (rooms, [Effect.toSender (.errorMsg "Playlist not found or empty")])
          | some playlist =>
              if playlist.assetIds.length = 0 then
                (rooms,
                 [Effect.toSender (.errorMsg "Playlist not found or empty")])
              else
                let order :=
                  if room.playback.shuffle then
                    shuffleArray env.rand playlist.assetIds
                  else playlist.assetIds
                let room' :=
                  { room with
                    playlistOrder := order
                    playback :=
                      { room.playback with
                        playlistId := some playlistId
                        playlistLength := playlist.assetIds.length
                        nextAssetId := none
                        playlistIndex := 0
                        assetId := order.get? 0
                        playing := true
                        currentTime := 0
                        timestamp := env.now } }
                (updateRooms rooms campaignId room',
                 [Effect.broadcastE campaignId (.playbackState room'.playback)
                    none])

/-- `handlePlaylistStop`. -/
def handlePlaylistStop (ws : ConnState) (rooms : Rooms) (env : Env) :
    Rooms × List Effect :=
  match ws.campaignId with
  | none => (rooms, [Effect.toSender (.errorMsg "Not in a campaign")])
  | some campaignId =>
      match rooms campaignId with
      | none => (rooms, [])
      | some room =>
          let room' :=
            { room with
              playlistOrder := []
              playback :=
                { room.playback with
                  playlistId := none
                  playlistIndex := -1
                  playlistLength := 0
                  nextAssetId := none
                  assetId := none
                  playing := false
                  currentTime := 0
                  timestamp := env.now } }
          (updateRooms rooms campaignId room',
           [Effect.broadcastE campaignId (.playbackState room'.playback) none])

/-- The shuffle-rebuild step of `handlePlaylistSettings`: on an actual shuffle
change with an active playlist and a non-empty realized order, re-read the
stored playlist, rebuild the realized order, and relocate the current asset
(falling back to index 0 when it is absent from the rebuilt order). -/
def rebuildOrder (room : RoomState) (shuffle : Bool) (campaignId : String)
    (env : Env) : RoomState :=
  match room.playback.playlistId with
  | none => room
  | some playlistId =>
      if room.playlistOrder.length = 0 then room
      else
        match env.getPlaylist campaignId playlistId with
        | none => room
        | some playlist =>
            let order :=
              if shuffle then shuffleArray env.rand playlist.assetIds
              else playlist.assetIds
            let newIndex :=
              match room.playback.assetId with
              | some a => indexOfJS order a
              | none => -1
            { room with
              playlistOrder := order
              playback :=
                { room.playback with
                  playlistIndex := if 0 ≤ newIndex then newIndex else 0 } }

/-- `handlePlaylistSettings`.  The timestamp is deliberately not refreshed. -/
def handlePlaylistSettings (ws : ConnState) (rooms : Rooms)
    (loop : Option Bool) (shuffle : Option Bool) (env : Env) :
    Rooms × List Effect :=
  match ws.campaignId with
  | none => (rooms, [Effect.toSender (.errorMsg "Not in a campaign")])
  | some campaignId =>
      match rooms campaignId with
      | none => (rooms, [])
      | some room =>
          let room1 :=
            match loop with
            | some l => { room with playback := { room.playback with loop := l } }
            | none => room
          let room2 :=
            match shuffle with
            | some sh =>
                let wasShuffled := room1.playback.shuffle
                let roomSet :=
                  { room1 with
                    playback := { room1.playback with shuffle := sh } }
                if wasShuffled ≠ sh then rebuildOrder roomSet sh campaignId env
                else roomSet
            | none => room1
          (updateRooms rooms campaignId room2,
           [Effect.broadcastE campaignId (.queueUpdated room2.playback) none])

/-- `handleQueueAsset`. -/
def handleQueueAsset (ws : ConnState) (rooms : Rooms) (assetId : String)
    (_env : Env) : Rooms × List Effect :=
  match ws.campaignId with
  | none => (rooms, [Effect.toSender (.errorMsg "Not in a campaign")])
  | some campaignId =>
      match rooms campaignId with
      | none => (rooms, [])
      | some room =>
          let room' :=
            { room with
              playback := { room.playback with nextAssetId := some assetId } }
          (updateRooms rooms campaignId room',
           [Effect.broadcastE campaignId (.queueUpdated room'.playback) none])

/-- `handleQueueJump`. -/
def handleQueueJump (ws : ConnState) (rooms : Rooms) (assetId : String)
    (env : Env) : Rooms × List Effect :=
  match ws.campaignId with
  | none => (rooms, [Effect.toSender (.errorMsg "Not in a campaign")])
  | some campaignId =>
      match rooms campaignId with
      | none => (rooms, [])
      | some room =>
          let index := indexOfJS room.playlistOrder assetId
          let room' :=
            if 0 ≤ index then
              { room with
                playback :=
                  { room.playback with
                    playlistIndex := index
                    assetId := some assetId
                    nextAssetId := none
                    currentTime := 0
                    playing := true
                    timestamp := env.now } }
            else room
          (updateRooms rooms campaignId room',
           [Effect.broadcastE campaignId (.playbackState room'.playback) none])

/-- `handleMiniAppEnable`. -/
def handleMiniAppEnable (ws : ConnState) (rooms : Rooms) (appId : String) :
    Rooms × List Effect :=
  match ws.campaignId with
  | none => (rooms, [Effect.toSender (.errorMsg "Not in a campaign")])
  | some campaignId =>
      match rooms campaignId with
      | none => (rooms, [])
      | some room =>
          if appId ∈ room.miniApps.enabledApps then (rooms, [])
          else
            let apps :=
              { enabledApps := room.miniApps.enabledApps ++ [appId]
                appStates :=
                  match lookupAssoc room.miniApps.appStates appId with
                  | some _ => room.miniApps.appStates
                  | none =>
                      setAssoc room.miniApps.appStates appId
                        ((defaultAppStates appId).getD .empty) : MiniAppState }
            let room' := { room with miniApps := apps }
            (updateRooms rooms campaignId room',
             [Effect.broadcastE campaignId (.miniappState apps) none])

/-- `handleMiniAppDisable` (the state blob is retained for re-enable). -/
def handleMiniAppDisable (ws : ConnState) (rooms : Rooms) (appId : String) :
    Rooms × List Effect :=
  match ws.campaignId with
  | none => (rooms, [Effect.toSender (.errorMsg "Not in a campaign")])
  | some campaignId =>
      match rooms campaignId with
      | none => (rooms, [])
      | some room =>
          if appId ∈ room.miniApps.enabledApps then
            let apps :=
              { enabledApps := room.miniApps.enabledApps.erase appId
                appStates := room.miniApps.appStates : MiniAppState }
            let room' := { room with miniApps := apps }
            (updateRooms rooms campaignId room',
             [Effect.broadcastE campaignId (.miniappState apps) none])
          else (rooms, [])

/-- `handleMiniAppAction`. -/
def handleMiniAppAction (ws : ConnState) (rooms : Rooms) (appId : String)
    (action : String) (payload : Option Payload) (env : Env) :
    Rooms × List Effect :=
  match ws.campaignId with
  | none => (rooms, [Effect.toSender (.errorMsg "Not in a campaign")])
  | some campaignId =>
      match rooms campaignId with
      | none => (rooms, [])
      | some room =>
          if appId ∈ room.miniApps.enabledApps then
            let currentState :=
              (lookupAssoc room.miniApps.appStates appId).getD .empty
            let newState :=
              applyAppReducer appId currentState action payload ws.user env
            let room' :=
              { room with
                miniApps :=
                  { room.miniApps with
                    appStates :=
                      setAssoc room.miniApps.appStates appId newState } }
            (updateRooms rooms campaignId room',
             [Effect.broadcastE campaignId (.miniappUpdated appId newState)
                none])
          else (rooms, [Effect.toSender (.errorMsg "App is not enabled")])

/-- `handleReloadPlayers`: a `reload` directive to every other connection in
the room (the source loops over the room's connections skipping the sender,
i.e. a broadcast excluding the sender). -/
def handleReloadPlayers (ws : ConnState) (rooms : Rooms) :
    Rooms × List Effect :=
  match ws.campaignId with
  | none => (rooms, [Effect.toSender (.errorMsg "Not in a campaign")])
  | some campaignId =>
      match rooms campaignId with
      | none => (rooms, [])
      | some _ => (rooms, [Effect.broadcastE campaignId .reload (some ws.id)])

/-- `handleMessage`: the server's `switch (message.type)` over an already
parsed frame (the JSON-parse failure branch replies
`error "Invalid message format"` and is outside this model).  `layer-volume`
and `layer-fade-to` have no case and fall through to the default branch. -/
def handleMessage (ws : ConnState) (rooms : Rooms) (msg : ClientMessage)
    (env : Env) : ConnState × Rooms × List Effect :=
  match msg with
  | .identify user => (handleIdentify ws user, rooms, [])
  | .joinCampaign campaignId => handleJoinCampaign ws rooms campaignId env
  | .leaveCampaign => handleLeaveCampaign ws rooms
  | .playbackCommand command time =>
      let r := handlePlaybackCommand ws rooms command time env
      (ws, r.1, r.2)
  | .assetSelect assetId =>
      let r := handleAssetSelect ws rooms assetId env
      (ws, r.1, r.2)
  | .playlistPlay playlistId =>
      let r := handlePlaylistPlay ws rooms playlistId env
      (ws, r.1, r.2)
  | .playlistStop =>
      let r := handlePlaylistStop ws rooms env
      (ws, r.1, r.2)
  | .playlistSettings loop shuffle =>
      let r := handlePlaylistSettings ws rooms loop shuffle env
      (ws, r.1, r.2)
  | .queueAsset assetId =>
      let r := handleQueueAsset ws rooms assetId env
      (ws, r.1, r.2)
  | .queueJump assetId =>
      let r := handleQueueJump ws rooms assetId env
      (ws, r.1, r.2)
  | .miniappEnable appId =>
      let r := handleMiniAppEnable ws rooms appId
      (ws, r.1, r.2)
  | .miniappDisable appId =>
      let r := handleMiniAppDisable ws rooms appId
      (ws, r.1, r.2)
  | .miniappAction appId action payload =>
      let r := handleMiniAppAction ws rooms appId action payload env
      (ws, r.1, r.2)
  | .reloadPlayers =>
      let r := handleReloadPlayers ws rooms
      (ws, r.1, r.2)
  | .layerVolume _ _ =>
      (ws, rooms, [Effect.toSender (.errorMsg "Unknown message type")])
  | .layerFadeTo _ _ =>
      (ws, rooms, [Effect.toSender (.errorMsg "Unknown message type")])

/-- The ten room-directed commands of the error-handling claim: every one of
them guards on a joined campaign before doing anything. -/
def requiresRoom : ClientMessage → Bool
  | .playbackCommand _ _ => true
  | .assetSelect _ => true
  | .playlistPlay _ => true
  | .playlistStop => true
  | .playlistSettings _ _ => true
  | .queueAsset _ => true
  | .queueJump _ => true
  | .miniappEnable _ => true
  | .miniappDisable _ => true
  | .miniappAction _ _ _ => true
  | _ => false

/-- The roll record built by a single `roll` action of `reduceDiceRoller` on a
spec parsing to `(count, sides)`. -/
def rollEntry (env : Env) (user : Option DiscordUser) (d : String)
    (count sides : Nat) : DiceEntry :=
  { id := env.newId
    oderId := (user.map (·.id)).getD "unknown"
    username := "GM"
    dice := d
    result := (rollResult env.rand count sides : Nat)
    timestamp := env.now }

/-- `n` consecutive `roll` actions with the same spec, step `k` running under
ambient inputs `envs k` (`k = 1 … n`). -/
def rollSeq (s0 : DiceState) (user : Option DiscordUser) (d : String)
    (envs : Nat → Env) : Nat → DiceState
  | 0 => s0
  | n + 1 =>
      reduceDiceRoller (rollSeq s0 user d envs n) "roll" (some (.diceP d)) user
        (envs (n + 1))

/-- The expected dice log after `n` rolls whose `k`-th record is `ents k`:
each step prepends the new record and truncates to 500. -/
def expectedHist (ents : Nat → DiceEntry) : Nat → List DiceEntry
  | 0 => []
  | n + 1 => (ents (n + 1) :: expectedHist ents n).take 500

/-! ## Concrete sample inputs (used by the closed instances below) -/

/-- An inert environment. -/
def sampleEnv : Env :=
  { now := 0, rand := fun _ => 0, newId := "id", getPlaylist := fun _ _ => none }

/-- The environment of the `k`-th dice roll in the bounded-log scenario:
clock at `k`. -/
def rollEnvs : Nat → Env := fun k =>
  { now := k, rand := fun _ => 0, newId := "r", getPlaylist := fun _ _ => none }

/-- A connection that has not joined any campaign. -/
def wsFree : ConnState := { id := "s1", campaignId := none, user := none }

/-- A connection joined to campaign `c1`. -/
def wsJoined : ConnState := { id := "s1", campaignId := some "c1", user := none }

/-- The empty room registry. -/
def noRooms : Rooms := fun _ => none

/-- An idle room for campaign `c1`. -/
def roomIdle : RoomState :=
  { campaignId := "c1"
    playback := getDefaultPlaybackState 0
    connections := ["s1"]
    users := []
    playlistOrder := []
    miniApps := getDefaultMiniAppState }

/-- Registry holding only `roomIdle`. -/
def roomsIdle : Rooms := fun c => if c = "c1" then some roomIdle else none

/-- Environment whose playlist store has the two-track playlist `p1`. -/
def envP1 : Env :=
  { now := 7
    rand := fun _ => 0
    newId := "id"
    getPlaylist := fun _ pid =>
      if pid = "p1" then some { assetIds := ["a", "b"] } else none }

/-- A room playing the last track of a two-track realized order, no loop. -/
def roomLastTrack : RoomState :=
  { campaignId := "c1"
    playback :=
      { assetId := some "b", playing := true, currentTime := 3, timestamp := 50
        playlistId := some "p1", playlistIndex := 1, playlistLength := 2
        loop := false, shuffle := false, nextAssetId := none }
    connections := ["s1"]
    users := []
    playlistOrder := ["a", "b"]
    miniApps := getDefaultMiniAppState }

/-- A room whose current asset `X` is not a track of the stored playlist
(reachable by consuming a queued foreign asset): the shuffle-toggle
counterexample state. -/
def roomForeignAsset : RoomState :=
  { campaignId := "c1"
    playback :=
      { assetId := some "X", playing := true, currentTime := 5, timestamp := 100
        playlistId := some "p1", playlistIndex := 0, playlistLength := 2
        loop := false, shuffle := false, nextAssetId := none }
    connections := ["s1"]
    users := []
    playlistOrder := ["a", "b"]
    miniApps := getDefaultMiniAppState }

/-- Registry holding only `roomForeignAsset`. -/
def roomsForeign : Rooms := fun c => if c = "c1" then some roomForeignAsset else none

/-- A room playing track `a` of playlist `p1` (asset in the stored list). -/
def roomOnTrackA : RoomState :=
  { campaignId := "c1"
    playback :=
      { assetId := some "a", playing := true, currentTime := 5, timestamp := 100
        playlistId := some "p1", playlistIndex := 0, playlistLength := 2
        loop := false, shuffle := false, nextAssetId := none }
    connections := ["s1"]
    users := []
    playlistOrder := ["a", "b"]
    miniApps := getDefaultMiniAppState }

/-- Registry holding only `roomOnTrackA`. -/
def roomsOnTrackA : Rooms := fun c => if c = "c1" then some roomOnTrackA else none

/-- A room with a queued override `b` while paused on track `a`. -/
def roomQueuedB : RoomState :=
  { campaignId := "c1"
    playback :=
      { assetId := some "a", playing := false, currentTime := 2, timestamp := 40
        playlistId := some "p1", playlistIndex := 0, playlistLength := 3
        loop := false, shuffle := false, nextAssetId := some "b" }
    connections := ["s1"]
    users := []
    playlistOrder := ["a", "b", "c"]
    miniApps := getDefaultMiniAppState }

/-- Registry holding only `roomQueuedB`. -/
def roomsQueuedB : Rooms := fun c => if c = "c1" then some roomQueuedB else none

/-- A room with no realized order but a queued asset. -/
def roomEmptyQueued : RoomState :=
  { campaignId := "c1"
    playback := { getDefaultPlaybackState 0 with nextAssetId := some "q" }
    connections := ["s1"]
    users := []
    playlistOrder := []
    miniApps := getDefaultMiniAppState }

/-- A room with the dice roller enabled. -/
def roomDice : RoomState :=
  { campaignId := "c1"
    playback := getDefaultPlaybackState 0
    connections := ["s1"]
    users := []
    playlistOrder := []
    miniApps :=
      { enabledApps := ["dice-roller"]
        appStates := [("dice-roller", .dice { history := [] })] } }

/-- Registry holding only `roomDice`. -/
def roomsDice : Rooms := fun c => if c = "c1" then some roomDice else none

/-- A quiz in question phase with no answers yet. -/
def quizQuestion : QuizState :=
  { phase := .question, question := "q", options := ["x", "y"], correctIndex := 0
    answers := [], timeLimit := 15, startTime := 0 }

/-- A sample identified participant. -/
def alice : DiscordUser :=
  { id := "u1", username := "alice", avatar := none, discriminator := "0"
    global_name := none }

/-! ## Auxiliary lemmas -/

/-- A found element sits at a non-negative index and is recovered by lookup. -/
lemma indexOfJS_of_mem {l : List String} {a : String} (h : a ∈ l) :
    0 ≤ indexOfJS l a ∧ l.get? (indexOfJS l a).toNat = some a := by
  induction l with
  | nil => simp at h
  | cons x t ih =>
    by_cases hx : x = a
    · subst hx
      simp [indexOfJS]
    · have h1 : a ∈ t := by
        rcases List.mem_cons.mp h with h1 | h1
        · exact absurd h1.symm hx
        · exact h1
      obtain ⟨h0, hget⟩ := ih h1
      have hnl : ¬ indexOfJS t a < 0 := not_lt.mpr h0
      have htn : (indexOfJS t a + 1).toNat = (indexOfJS t a).toNat + 1 := by omega
      refine ⟨?_, ?_⟩
      · simp only [indexOfJS, if_neg hx, if_neg hnl]
        omega
      · simp only [indexOfJS, if_neg hx, if_neg hnl, htn, List.get?_cons_succ]
        exact hget

/-- Writing `x` over position `m` and re-consing the old occupant `b` is a
permutation of consing `x`. -/
lemma perm_cons_set {t : List α} {m : Nat} {x b : α} (h : t.get? m = some b) :
    (b :: t.set m x).Perm (x :: t) := by
  induction t generalizing m with
  | nil => simp at h
  | cons y t' ih =>
    cases m with
    | zero =>
      have hyb : y = b := by simpa using h
      subst hyb
      exact List.Perm.swap x y t'
    | succ k =>
      simp only [List.get?_cons_succ] at h
      show (b :: y :: t'.set k x).Perm (x :: y :: t')
      have h1 : (b :: y :: t'.set k x).Perm (y :: b :: t'.set k x) :=
        List.Perm.swap y b _
      have h2 : (y :: b :: t'.set k x).Perm (y :: x :: t') := (ih h).cons y
      have h3 : (y :: x :: t').Perm (x :: y :: t') := List.Perm.swap x y t'
      exact (h1.trans h2).trans h3

/-- A two-position overwrite that exchanges existing elements is a
permutation. -/
lemma set_set_perm {l : List α} {i j : Nat} {a b : α}
    (hi : l.get? i = some a) (hj : l.get? j = some b) :
    ((l.set i b).set j a).Perm l := by
  induction l generalizing i j with
  | nil => simp at hi
  | cons x t ih =>
    cases i with
    | zero =>
      have hxa : x = a := by simpa using hi
      subst hxa
      cases j with
      | zero =>
        have hxb : x = b := by simpa using hj
        subst hxb
        simp
      | succ m =>
        simp only [List.get?_cons_succ] at hj
        show (b :: t.set m x).Perm (x :: t)
        exact perm_cons_set hj
    | succ n =>
      simp only [List.get?_cons_succ] at hi
      cases j with
      | zero =>
        have hxb : x = b := by simpa using hj
        subst hxb
        show (a :: t.set n x).Perm (x :: t)
        exact perm_cons_set hi
      | succ m =>
        simp only [List.get?_cons_succ] at hj
        show (x :: (t.set n b).set m a).Perm (x :: t)
        exact (ih hi hj).cons x

/-- `swapJS` permutes its input. -/
lemma swapJS_perm (l : List α) (i j : Nat) : (swapJS l i j).Perm l := by
  rw [swapJS]
  split
  · next a b hi hj => exact set_set_perm hi hj
  · exact List.Perm.refl l

/-- The Fisher–Yates loop permutes its input. -/
lemma shuffleGo_perm (rand : Nat → Nat) (i : Nat) (l : List α) :
    (shuffleGo rand i l).Perm l := by
  induction i generalizing l with
  | zero => simp [shuffleGo]
  | succ k ih =>
    exact (ih _).trans (swapJS_perm l (k + 1) (rand (k + 1) % (k + 2)))

/-- `shuffleArray` returns a permutation of its input. -/
lemma shuffleArray_perm (rand : Nat → Nat) (l : List α) :
    (shuffleArray rand l).Perm l :=
  shuffleGo_perm rand (l.length - 1) l

/-- Folding additions equals the sum of the mapped list. -/
lemma foldl_add_eq_sum (f : Nat → Nat) (l : List Nat) (n : Nat) :
    l.foldl (fun acc i => acc + f i) n = n + (l.map f).sum := by
  induction l generalizing n with
  | nil => simp
  | cons x t ih => simp [List.foldl_cons, ih, Nat.add_assoc]

/-- The roll loop computes the sum of the individual draws. -/
lemma rollResult_eq_sum (rand : Nat → Nat) (count sides : Nat) :
    rollResult rand count sides
      = ((List.range count).map fun i => jsRandFloor (rand i) sides + 1).sum := by
  simpa [rollResult] using foldl_add_eq_sum (fun i => jsRandFloor (rand i) sides + 1) (List.range count) 0

/-- Each draw is at least 1 and, for a positive die, at most `sides`. -/
lemma draw_bounds (r sides : Nat) (hs : 1 ≤ sides) :
    1 ≤ jsRandFloor r sides + 1 ∧ jsRandFloor r sides + 1 ≤ sides := by
  have hmax : max sides 1 = sides := by omega
  have : r % max sides 1 < sides := by
    rw [hmax]
    exact Nat.mod_lt _ (by omega)
  constructor
  · omega
  · simp only [jsRandFloor]
    omega

/-- Bounds of an `NdM` roll: between `count` and `count * sides`. -/
lemma rollResult_bounds (rand : Nat → Nat) (count sides : Nat)
    (hs : 1 ≤ sides) :
    count ≤ rollResult rand count sides ∧
      rollResult rand count sides ≤ count * sides := by
  rw [rollResult_eq_sum]
  induction count with
  | zero => simp
  | succ n ih =>
    rw [List.range_succ, List.map_append, List.sum_append]
    have hd := draw_bounds (rand n) sides hs
    simp only [List.map_cons, List.map_nil, List.sum_cons, List.sum_nil]
    constructor
    · omega
    · have := ih.2
      have hmul : (n + 1) * sides = n * sides + sides := by ring
      omega

/-! ## Claims -/

/-- C9.  The specification states that `fadeToLayer(assetId)` sets the
server-held target volume of `assetId` to 1 and every other layer's target
volume to 0, and that `setLayerVolume(assetId, volume)` sets one layer's
target volume.  The server has no case for either message: both fall through
the dispatch switch to the default branch, which replies an
"Unknown message type" error to the sender and leaves every room (and the
connection) unchanged — the server holds no layer volumes at all.  This
contradicts the server's own `ClientMessage`/`PlaybackState` declarations and
the client, which sends both messages; the claim documents the intent and the
code is missing the handler. -/
theorem claim_C9 (ws : ConnState) (rooms : Rooms) (env : Env)
    (assetId : String) (volume : Int) (duration : Option Int) :
    handleMessage ws rooms (.layerFadeTo assetId duration) env
      = (ws, rooms, [Effect.toSender (.errorMsg "Unknown message type")])
    ∧ handleMessage ws rooms (.layerVolume assetId volume) env
      = (ws, rooms, [Effect.toSender (.errorMsg "Unknown message type")]) :=
  ⟨rfl, rfl⟩

/-- C5.  Every room-directed command (playback-command, asset-select,
playlist-play, playlist-stop, playlist-settings, queue-asset, queue-jump,
miniapp-enable, miniapp-disable, miniapp-action) arriving on a connection
with no joined campaign produces exactly one error message to the sender,
no broadcast, and leaves the room registry and the connection unchanged. -/
theorem claim_C5 (ws : ConnState) (rooms : Rooms) (msg : ClientMessage)
    (env : Env) (hc : ws.campaignId = none) (hm : requiresRoom msg = true) :
    handleMessage ws rooms msg env
      = (ws, rooms, [Effect.toSender (.errorMsg "Not in a campaign")]) := by
  cases msg with
  | playbackCommand c t => simp [handleMessage, handlePlaybackCommand, hc]
  | assetSelect a => simp [handleMessage, handleAssetSelect, hc]
  | playlistPlay p => simp [handleMessage, handlePlaylistPlay, hc]
  | playlistStop => simp [handleMessage, handlePlaylistStop, hc]
  | playlistSettings l s => simp [handleMessage, handlePlaylistSettings, hc]
  | queueAsset a => simp [handleMessage, handleQueueAsset, hc]
  | queueJump a => simp [handleMessage, handleQueueJump, hc]
  | miniappEnable a => simp [handleMessage, handleMiniAppEnable, hc]
  | miniappDisable a => simp [handleMessage, handleMiniAppDisable, hc]
  | miniappAction a b p => simp [handleMessage, handleMiniAppAction, hc]
  | identify u => simp [requiresRoom] at hm
  | joinCampaign c => simp [requiresRoom] at hm
  | leaveCampaign => simp [requiresRoom] at hm
  | layerVolume a v => simp [requiresRoom] at hm
  | layerFadeTo a d => simp [requiresRoom] at hm
  | reloadPlayers => simp [requiresRoom] at hm

/-- Closed instance of C5: a `playlist-stop` from a connection with no
campaign only yields the error acknowledgment. -/
theorem claim_C5_witness :
    handleMessage wsFree noRooms .playlistStop sampleEnv
      = (wsFree, noRooms, [Effect.toSender (.errorMsg "Not in a campaign")]) :=
  claim_C5 wsFree noRooms .playlistStop sampleEnv rfl rfl

/-- C2.  On a room with a non-empty realized order of `K` tracks and no
queued-next asset: `next` from the last index without loop stops playback
(only `playing` and the timestamp change; asset, index and position stay);
`next` from the last index with loop wraps to index 0 and keeps playing;
`prev` from index 0 with loop wraps to index `K-1`; `prev` from index 0
without loop clamps to index 0 and does not stop playback.  Every valid new
index installs `realizedOrder[newIndex]` as current asset, resets the
position to 0 and refreshes the timestamp. -/
theorem claim_C2 (room : RoomState) (K : Nat) (now : Nat)
    (hlen : room.playlistOrder.length = K) (hK : 0 < K)
    (hq : room.playback.nextAssetId = none) :
    (room.playback.playlistIndex = (K : Int) - 1 →
      room.playback.loop = false →
      advancePlaylist room 1 now
        = { room with
            playback :=
              { room.playback with playing := false, timestamp := now } })
    ∧ (room.playback.playlistIndex = (K : Int) - 1 →
      room.playback.loop = true →
      advancePlaylist room 1 now
        = { room with
            playback :=
              { room.playback with
                playlistIndex := 0
                assetId := room.playlistOrder.get? 0
                currentTime := 0
                timestamp := now } }
      ∧ (room.playback.playing = true →
          (advancePlaylist room 1 now).playback.playing = true))
    ∧ (room.playback.playlistIndex = 0 → room.playback.loop = true →
      advancePlaylist room (-1) now
        = { room with
            playback :=
              { room.playback with
                playlistIndex := (K : Int) - 1
                assetId := room.playlistOrder.get? (K - 1)
                currentTime := 0
                timestamp := now } })
    ∧ (room.playback.playlistIndex = 0 → room.playback.loop = false →
      advancePlaylist room (-1) now
        = { room with
            playback :=
              { room.playback with
                playlistIndex := 0
                assetId := room.playlistOrder.get? 0
                currentTime := 0
                timestamp := now } }
      ∧ (advancePlaylist room (-1) now).playback.playing
          = room.playback.playing) := by
  have hne : ¬ room.playlistOrder.length = 0 := by omega
  have hne2 : ¬ K = 0 := by omega
  refine ⟨?_, ?_, ?_, ?_⟩
  · intro hidx hloop
    have hcond : ((room.playlistOrder.length : Int) ≤ (K : Int) - 1 + 1) := by
      omega
    simp [advancePlaylist, advanceNormal, hq, hne, hne2, hidx, hloop, hcond,
      hlen]
  · intro hidx hloop
    have hcond : ((room.playlistOrder.length : Int) ≤ (K : Int) - 1 + 1) := by
      omega
    have heq : advancePlaylist room 1 now
        = { room with
            playback :=
              { room.playback with
                playlistIndex := 0
                assetId := room.playlistOrder.get? 0
                currentTime := 0
                timestamp := now } } := by
      simp [advancePlaylist, advanceNormal, setPlaylistPos, hq, hne, hne2,
        hidx, hloop, hcond, hlen]
    refine ⟨heq, fun hplay => ?_⟩
    rw [heq]
    simpa using hplay
  · intro hidx hloop
    have hc1 : ¬ ((K : Int) ≤ -1) := by omega
    have hc2 : ((-1 : Int) < 0) := by omega
    have htn : ((K : Int) - 1).toNat = K - 1 := by omega
    simp [advancePlaylist, advanceNormal, setPlaylistPos, hq, hne, hne2, hidx,
      hloop, hc1, hc2, htn, hlen]
  · intro hidx hloop
    have hc1 : ¬ ((K : Int) ≤ -1) := by omega
    have hc2 : ((-1 : Int) < 0) := by omega
    have heq : advancePlaylist room (-1) now
        = { room with
            playback :=
              { room.playback with
                playlistIndex := 0
                assetId := room.playlistOrder.get? 0
                currentTime := 0
                timestamp := now } } := by
      simp [advancePlaylist, advanceNormal, setPlaylistPos, hq, hne, hne2,
        hidx, hloop, hc1, hc2, hlen]
    refine ⟨heq, ?_⟩
    rw [heq]

/-- Closed instance of C2: on a two-track room at the last index with
`loop=false`, `next` stops playback and leaves asset, index and position. -/
theorem claim_C2_witness :
    advancePlaylist roomLastTrack 1 99
      = { roomLastTrack with
          playback :=
            { roomLastTrack.playback with playing := false, timestamp := 99 } } :=
  (claim_C2 roomLastTrack 2 99 rfl (by decide) rfl).1 rfl rfl

/-- C10.  With an empty realized order, `next`/`prev` leave the room
completely unchanged even when a queued-next asset is set (the queued asset
is never consumed outside playlist mode).  When a queued asset is consumed by
a forward advance, the `playing` flag is left exactly as it was.  By
contrast, `queue-jump` on an asset of the realized order always forces
`playing := true`. -/
theorem claim_C10 (room : RoomState) (now : Nat) :
    (room.playlistOrder = [] →
      advancePlaylist room 1 now = room ∧ advancePlaylist room (-1) now = room)
    ∧ (∀ y, room.playlistOrder ≠ [] → room.playback.nextAssetId = some y →
        (advancePlaylist room 1 now).playback.playing = room.playback.playing)
    ∧ (∀ (ws : ConnState) (rooms : Rooms) (cid : String) (r : RoomState)
        (aid : String) (env : Env),
        ws.campaignId = some cid → rooms cid = some r →
        aid ∈ r.playlistOrder →
        handleQueueJump ws rooms aid env
          = (updateRooms rooms cid
              { r with
                playback :=
                  { r.playback with
                    playlistIndex := indexOfJS r.playlistOrder aid
                    assetId := some aid
                    nextAssetId := none
                    currentTime := 0
                    playing := true
                    timestamp := env.now } },
             [Effect.broadcastE cid
               (.playbackState
                 { r.playback with
                   playlistIndex := indexOfJS r.playlistOrder aid
                   assetId := some aid
                   nextAssetId := none
                   currentTime := 0
                   playing := true
                   timestamp := env.now }) none])) := by
  refine ⟨?_, ?_, ?_⟩
  · intro horder
    constructor <;> simp [advancePlaylist, horder]
  · intro y horder hq
    have hne : ¬ room.playlistOrder.length = 0 := by
      simpa [List.length_eq_zero] using horder
    simp [advancePlaylist, consumeQueued, hq, hne]
  · intro ws rooms cid r aid env hc hr hmem
    have h0 := (indexOfJS_of_mem hmem).1
    simp [handleQueueJump, hc, hr, h0]

/-- Closed instance of C10: with no realized order, `next` and `prev` are
no-ops even though an asset is queued. -/
theorem claim_C10_witness :
    advancePlaylist roomEmptyQueued 1 5 = roomEmptyQueued
    ∧ advancePlaylist roomEmptyQueued (-1) 5 = roomEmptyQueued :=
  (claim_C10 roomEmptyQueued 5).1 rfl

/-- C4.  `queueAsset(Y)` sets the queued-next field to `Y` (overwriting any
previous value) and changes no other playback field, broadcasting a
queue-updated message.  On any room with a non-empty realized order
containing `Y`, the next forward advance makes `Y` current regardless of the
current index, clears the queued-next field, resets the position to 0 and
refreshes the timestamp; a subsequent forward advance continues from `Y`'s
position in the realized order. -/
theorem claim_C4 (ws : ConnState) (rooms : Rooms) (cid : String)
    (room : RoomState) (y : String) (env : Env) (now now2 : Nat)
    (hc : ws.campaignId = some cid) (hr : rooms cid = some room) :
    (handleQueueAsset ws rooms y env
      = (updateRooms rooms cid
          { room with
            playback := { room.playback with nextAssetId := some y } },
         [Effect.broadcastE cid
           (.queueUpdated { room.playback with nextAssetId := some y }) none]))
    ∧ (∀ r : RoomState, r.playlistOrder ≠ [] →
        r.playback.nextAssetId = some y → y ∈ r.playlistOrder →
        advancePlaylist r 1 now
          = { r with
              playback :=
                { r.playback with
                  assetId := some y
                  nextAssetId := none
                  playlistIndex := indexOfJS r.playlistOrder y
                  currentTime := 0
                  timestamp := now } }
        ∧ (indexOfJS r.playlistOrder y + 1 < (r.playlistOrder.length : Int) →
            (advancePlaylist (advancePlaylist r 1 now) 1 now2).playback.assetId
              = r.playlistOrder.get? (indexOfJS r.playlistOrder y + 1).toNat
            ∧ (advancePlaylist (advancePlaylist r 1 now) 1
                  now2).playback.playlistIndex
              = indexOfJS r.playlistOrder y + 1)) := by
  constructor
  · simp [handleQueueAsset, hc, hr]
  · intro r hord hq hmem
    have hne : ¬ r.playlistOrder.length = 0 := by
      simpa [List.length_eq_zero] using hord
    obtain ⟨h0, hget⟩ := indexOfJS_of_mem hmem
    have heq1 : advancePlaylist r 1 now
        = { r with
            playback :=
              { r.playback with
                assetId := some y
                nextAssetId := none
                playlistIndex := indexOfJS r.playlistOrder y
                currentTime := 0
                timestamp := now } } := by
      simp [advancePlaylist, consumeQueued, hq, hne, h0]
    refine ⟨heq1, fun hlt => ?_⟩
    rw [heq1]
    have hc1 : ¬ ((r.playlistOrder.length : Int)
        ≤ indexOfJS r.playlistOrder y + 1) := by omega
    have hc2 : ¬ (indexOfJS r.playlistOrder y + 1 < 0) := by omega
    constructor
    · simp [advancePlaylist, advanceNormal, setPlaylistPos, hne, hc1, hc2]
    · simp [advancePlaylist, advanceNormal, setPlaylistPos, hne, hc1, hc2]

/-- Closed instance of C4: queueing asset `b` in the idle room only sets the
queued-next field and broadcasts a queue-updated message. -/
theorem claim_C4_witness :
    handleQueueAsset wsJoined roomsIdle "b" sampleEnv
      = (updateRooms roomsIdle "c1"
          { roomIdle with
            playback := { roomIdle.playback with nextAssetId := some "b" } },
         [Effect.broadcastE "c1"
           (.queueUpdated { roomIdle.playback with nextAssetId := some "b" })
           none]) :=
  (claim_C4 wsJoined roomsIdle "c1" roomIdle "b" sampleEnv 0 0 rfl rfl).1

/-- C1.  `playlist-play` fails with an error acknowledgment to the sender and
leaves the room registry unchanged when the playlist is missing or has zero
tracks.  Otherwise, for a playlist with `K` tracks, it sets the realized
order to a copy of the playlist's asset ids (shuffled when the shuffle flag
is set — always a permutation, and exactly the original order when shuffle is
off), `playlistIndex = 0`, `playlistLength = K`, the current asset to
`realizedOrder[0]`, `playing = true`, position 0, refreshes the timestamp,
clears the queued-next asset, and broadcasts a single playback-state
message. -/
theorem claim_C1 (ws : ConnState) (rooms : Rooms) (cid : String)
    (room : RoomState) (pid : String) (env : Env)
    (hc : ws.campaignId = some cid) (hr : rooms cid = some room) :
    (env.getPlaylist cid pid = none →
      handlePlaylistPlay ws rooms pid env
        = (rooms, [Effect.toSender (.errorMsg "Playlist not found or empty")]))
    ∧ (∀ pl : Playlist, env.getPlaylist cid pid = some pl →
        pl.assetIds = [] →
        handlePlaylistPlay ws rooms pid env
          = (rooms,
             [Effect.toSender (.errorMsg "Playlist not found or empty")]))
    ∧ (∀ pl : Playlist, env.getPlaylist cid pid = some pl →
        pl.assetIds ≠ [] →
        handlePlaylistPlay ws rooms pid env
          = (updateRooms rooms cid
              { room with
                playlistOrder :=
                  if room.playback.shuffle then
                    shuffleArray env.rand pl.assetIds
                  else pl.assetIds
                playback :=
                  { room.playback with
                    playlistId := some pid
                    playlistLength := pl.assetIds.length
                    nextAssetId := none
                    playlistIndex := 0
                    assetId :=
                      (if room.playback.shuffle then
                          shuffleArray env.rand pl.assetIds
                        else pl.assetIds).get? 0
                    playing := true
                    currentTime := 0
                    timestamp := env.now } },
             [Effect.broadcastE cid
               (.playbackState
                 { room.playback with
                   playlistId := some pid
                   playlistLength := pl.assetIds.length
                   nextAssetId := none
                   playlistIndex := 0
                   assetId :=
                     (if room.playback.shuffle then
                         shuffleArray env.rand pl.assetIds
                       else pl.assetIds).get? 0
                   playing := true
                   currentTime := 0
                   timestamp := env.now }) none])
        ∧ (if room.playback.shuffle then shuffleArray env.rand pl.assetIds
            else pl.assetIds).Perm pl.assetIds
        ∧ (room.playback.shuffle = false →
            (if room.playback.shuffle then shuffleArray env.rand pl.assetIds
              else pl.assetIds) = pl.assetIds)) := by
  refine ⟨?_, ?_, ?_⟩
  · intro hget
    simp [handlePlaylistPlay, hc, hr, hget]
  · intro pl hget hempty
    simp [handlePlaylistPlay, hc, hr, hget, hempty]
  · intro pl hget hnonempty
    have hne : ¬ pl.assetIds.length = 0 := by
      simpa [List.length_eq_zero] using hnonempty
    refine ⟨?_, ?_, ?_⟩
    · simp [handlePlaylistPlay, hc, hr, hget, hne]
    · by_cases hsh : room.playback.shuffle <;>
        simp [hsh, shuffleArray_perm, List.Perm.refl]
    · intro hsh
      simp [hsh]

/-- Closed instance of C1: playing the two-track playlist `p1` in the idle
room realizes the original order, starts at index 0 on track `a`, playing,
at position 0, and broadcasts one playback-state message. -/
theorem claim_C1_witness :
    handlePlaylistPlay wsJoined roomsIdle "p1" envP1
      = (updateRooms roomsIdle "c1"
          { roomIdle with
            playlistOrder := ["a", "b"]
            playback :=
              { roomIdle.playback with
                playlistId := some "p1"
                playlistLength := 2
                nextAssetId := none
                playlistIndex := 0
                assetId := some "a"
                playing := true
                currentTime := 0
                timestamp := 7 } },
         [Effect.broadcastE "c1"
           (.playbackState
             { roomIdle.playback with
               playlistId := some "p1"
               playlistLength := 2
               nextAssetId := none
               playlistIndex := 0
               assetId := some "a"
               playing := true
               currentTime := 0
               timestamp := 7 }) none]) := by
  have h := (claim_C1 wsJoined roomsIdle "c1" roomIdle "p1" envP1 rfl
    rfl).2.2 { assetIds := ["a", "b"] } rfl (by decide)
  simpa [roomIdle, getDefaultPlaybackState] using h.1

/-- C3 (as stated, refuted at a concrete input).  The claim asserts that
after toggling shuffle the new index always satisfies
`realizedOrder[newIndex] == X` for the currently playing asset `X`.  In the
reachable room `roomForeignAsset` (current asset `X` came from a queued
override and is not a track of the stored playlist), toggling shuffle
relocates the index to the fallback 0 and `realizedOrder[0] = "b" ≠ "X"`,
while `assetId` still is `X`. -/
theorem claim_C3_counterexample :
    ((handlePlaylistSettings wsJoined roomsForeign none (some true)
        envP1).1 "c1").map
        (fun r =>
          (r.playlistOrder.get? r.playback.playlistIndex.toNat,
            r.playback.assetId))
      = some (some "b", some "X")
    ∧ ("b" : String) ≠ "X" := by
  constructor
  · decide
  · decide

/-- C3 (amended).  For every room with an active playlist whose currently
playing asset `X` is among the stored playlist's asset ids, toggling the
shuffle setting rebuilds the realized order (shuffled or original) but never
changes `assetId`, `currentTime`, the timestamp, `playing`, `loop`, the
playlist id/length or the queued-next asset; only `playlistIndex`, the
shuffle flag and the realized order change, the new index is non-negative
and satisfies `realizedOrder[newIndex] = X`, and the single resulting
broadcast is a queue-updated message, not a playback-state message.  (When
`X` is not among the stored ids — only reachable via a queued override or a
playlist edited after play — the index falls back to 0 instead, which is the
counterexample above.) -/
theorem claim_C3_amended (ws : ConnState) (rooms : Rooms) (cid : String)
    (room : RoomState) (pid : String) (pl : Playlist) (env : Env) (sh : Bool)
    (X : String)
    (hc : ws.campaignId = some cid) (hr : rooms cid = some room)
    (hpid : room.playback.playlistId = some pid)
    (hord : room.playlistOrder ≠ [])
    (htoggle : room.playback.shuffle ≠ sh)
    (hget : env.getPlaylist cid pid = some pl)
    (hX : room.playback.assetId = some X) (hmem : X ∈ pl.assetIds) :
    handlePlaylistSettings ws rooms none (some sh) env
      = (updateRooms rooms cid
          { room with
            playlistOrder :=
              if sh then shuffleArray env.rand pl.assetIds else pl.assetIds
            playback :=
              { room.playback with
                shuffle := sh
                playlistIndex :=
                  indexOfJS
                    (if sh then shuffleArray env.rand pl.assetIds
                      else pl.assetIds) X } },
         [Effect.broadcastE cid
           (.queueUpdated
             { room.playback with
               shuffle := sh
               playlistIndex :=
                 indexOfJS
                   (if sh then shuffleArray env.rand pl.assetIds
                     else pl.assetIds) X }) none])
    ∧ 0 ≤ indexOfJS
        (if sh then shuffleArray env.rand pl.assetIds else pl.assetIds) X
    ∧ (if sh then shuffleArray env.rand pl.assetIds else pl.assetIds).get?
        (indexOfJS
          (if sh then shuffleArray env.rand pl.assetIds else pl.assetIds)
          X).toNat
      = some X := by
  have hmem' :
      X ∈ (if sh then shuffleArray env.rand pl.assetIds else pl.assetIds) := by
    by_cases hsh : sh
    · simpa [hsh] using
        ((shuffleArray_perm env.rand pl.assetIds).mem_iff).mpr hmem
    · simpa [hsh] using hmem
  obtain ⟨h0, hget'⟩ := indexOfJS_of_mem hmem'
  have hne : ¬ room.playlistOrder.length = 0 := by
    simpa [List.length_eq_zero] using hord
  refine ⟨?_, h0, hget'⟩
  simp [handlePlaylistSettings, rebuildOrder, hc, hr, hpid, hord, htoggle,
    hget, hX, hne, h0]

/-- Closed instance of the amended C3: toggling shuffle on while `a` plays
relocates it (order becomes `["b","a"]`, index 1); asset, position and
timestamp are untouched and the broadcast is queue-updated. -/
theorem claim_C3_witness :
    handlePlaylistSettings wsJoined roomsOnTrackA none (some true) envP1
      = (updateRooms roomsOnTrackA "c1"
          { roomOnTrackA with
            playlistOrder := ["b", "a"]
            playback :=
              { roomOnTrackA.playback with
                shuffle := true, playlistIndex := 1 } },
         [Effect.broadcastE "c1"
           (.queueUpdated
             { roomOnTrackA.playback with
               shuffle := true, playlistIndex := 1 }) none]) := by
  have h := (claim_C3_amended wsJoined roomsOnTrackA "c1" roomOnTrackA "p1"
    { assetIds := ["a", "b"] } envP1 true "a" rfl rfl rfl (by decide)
    (by decide) rfl rfl (by decide)).1
  rw [h]
  rfl

/-- C6.  Dispatching a mini-app action on an app that is not in the
enabled-apps list leaves the room registry unchanged and broadcasts nothing
(only an error acknowledgment goes to the sender).  On an enabled app the
dispatch applies that app's reducer to its stored blob and broadcasts exactly
one miniapp-updated message carrying only that app's new state keyed by its
app id. -/
theorem claim_C6 (ws : ConnState) (rooms : Rooms) (cid : String)
    (room : RoomState) (appId action : String) (payload : Option Payload)
    (env : Env) (hc : ws.campaignId = some cid) (hr : rooms cid = some room) :
    (appId ∉ room.miniApps.enabledApps →
      handleMiniAppAction ws rooms appId action payload env
        = (rooms, [Effect.toSender (.errorMsg "App is not enabled")]))
    ∧ (appId ∈ room.miniApps.enabledApps →
      handleMiniAppAction ws rooms appId action payload env
        = (updateRooms rooms cid
            { room with
              miniApps :=
                { room.miniApps with
                  appStates :=
                    setAssoc room.miniApps.appStates appId
                      (applyAppReducer appId
                        ((lookupAssoc room.miniApps.appStates appId).getD
                          .empty)
                        action payload ws.user env) } },
           [Effect.broadcastE cid
             (.miniappUpdated appId
               (applyAppReducer appId
                 ((lookupAssoc room.miniApps.appStates appId).getD .empty)
                 action payload ws.user env)) none])) := by
  constructor
  · intro hno
    simp [handleMiniAppAction, hc, hr, hno]
  · intro hyes
    simp [handleMiniAppAction, hc, hr, hyes]

/-- Closed instance of C6: an action on the disabled quiz app in a room where
only the dice roller is enabled changes nothing and broadcasts nothing. -/
theorem claim_C6_witness :
    handleMiniAppAction wsJoined roomsDice "quiz" "reveal-results" none
        sampleEnv
      = (roomsDice, [Effect.toSender (.errorMsg "App is not enabled")]) :=
  (claim_C6 wsJoined roomsDice "c1" roomDice "quiz" "reveal-results" none
    sampleEnv rfl rfl).1 (by decide)

/-- C8.  In question phase a second submit-answer from the same actor leaves
the answer set unchanged (only the first answer is retained), and
reveal-results is the identity in every phase other than question,
transitioning question to results (changing nothing else) when in question
phase. -/
theorem claim_C8 (s : QuizState) (u : DiscordUser) (i i2 : Int)
    (env env2 : Env) (p : Option Payload) (user2 : Option DiscordUser)
    (hphase : s.phase = .question) :
    (reduceQuiz (reduceQuiz s "submit-answer" (some (.answerP i)) (some u) env)
        "submit-answer" (some (.answerP i2)) (some u) env2
      = reduceQuiz s "submit-answer" (some (.answerP i)) (some u) env)
    ∧ (∀ s' : QuizState, s'.phase ≠ .question →
        reduceQuiz s' "reveal-results" p user2 env2 = s')
    ∧ reduceQuiz s "reveal-results" p user2 env2 = { s with phase := .results } := by
  refine ⟨?_, ?_, ?_⟩
  · by_cases hans : s.answers.any (fun a => a.oderId = u.id)
    · simp [reduceQuiz, hphase, hans]
    · simp [reduceQuiz, hphase, hans]
  · intro s' hs'
    simp [reduceQuiz, hs']
  · simp [reduceQuiz, hphase]

/-- Closed instance of C8: after `alice` answers, a second answer from
`alice` changes nothing. -/
theorem claim_C8_witness :
    reduceQuiz
        (reduceQuiz quizQuestion "submit-answer" (some (.answerP 0))
          (some alice) sampleEnv)
        "submit-answer" (some (.answerP 1)) (some alice) sampleEnv
      = reduceQuiz quizQuestion "submit-answer" (some (.answerP 0))
          (some alice) sampleEnv :=
  (claim_C8 quizQuestion alice 0 1 sampleEnv sampleEnv none none rfl).1

/-- A `roll` action on a parsable spec prepends the new record and truncates
the log to 500. -/
lemma reduce_roll_eq {d : String} {count sides : Nat}
    (hparse : parseDiceSpec d = some (count, sides)) (s : DiceState)
    (user : Option DiscordUser) (env : Env) :
    reduceDiceRoller s "roll" (some (.diceP d)) user env
      = { s with
          history := (rollEntry env user d count sides :: s.history).take 500 } := by
  simp [reduceDiceRoller, hparse, rollEntry]

/-- Closed form of the expected log while no truncation has happened
(`n ≤ 500`): the `n` records, newest first. -/
lemma expectedHist_upto (ents : Nat → DiceEntry) (n : Nat) (h : n ≤ 500) :
    expectedHist ents n
      = (List.range n).map (fun k => ents (n - k)) := by
  induction n with
  | zero => simp [expectedHist]
  | succ n ih =>
    have hn : n ≤ 500 := by omega
    rw [expectedHist, ih hn]
    have hlen :
        (ents (n + 1) :: (List.range n).map fun k => ents (n - k)).length
          ≤ 500 := by
      simp only [List.length_cons, List.length_map, List.length_range]
      omega
    rw [List.take_of_length_le hlen, List.range_succ_eq_map]
    simp [List.map_map, Function.comp, Nat.succ_sub_succ]

/-- Taking one element short of a full range drops the last index. -/
lemma range_take_succ (m : Nat) :
    (List.range (m + 1)).take m = List.range m := by
  rw [List.range_succ]
  exact List.take_left' (List.length_range m)

/-- Taking 500 of a cons keeps the head and 499 of the tail. -/
lemma take500_cons {α : Type} (a : α) (l : List α) :
    (a :: l).take 500 = a :: l.take 499 :=
  List.take_succ_cons

/-- The dice log of `n` consecutive rolls from the empty log is the expected
bounded log. -/
lemma rollSeq_eq_expected {d : String} {count sides : Nat}
    (hparse : parseDiceSpec d = some (count, sides))
    (user : Option DiscordUser) (envs : Nat → Env) (n : Nat) :
    (rollSeq { history := [] } user d envs n).history
      = expectedHist (fun k => rollEntry (envs k) user d count sides) n := by
  induction n with
  | zero => rfl
  | succ n ih =>
    rw [rollSeq, reduce_roll_eq hparse, expectedHist, ih]

/-- C7.  A `roll` action with a spec parsing as `NdM` prepends one record
whose result is the sum of `N` draws, each draw in `[1, M]` (so a `2d6`
result is always in `[2, 12]` and a `d20` result in `[1, 20]`), keeping the
log newest first and capped at 500: after 501 rolls from the empty log the
log has exactly 500 entries and the record of the first (oldest) roll is
absent. -/
theorem claim_C7 (s : DiceState) (user : Option DiscordUser) (d : String)
    (count sides : Nat) (envs : Nat → Env)
    (hparse : parseDiceSpec d = some (count, sides)) (hsides : 1 ≤ sides)
    (hmono : ∀ i j, i < j → (envs i).now < (envs j).now) :
    (∀ env : Env,
      reduceDiceRoller s "roll" (some (.diceP d)) user env
        = { s with
            history :=
              (rollEntry env user d count sides :: s.history).take 500 }
      ∧ (rollEntry env user d count sides).result
          = ((((List.range count).map
                fun i => jsRandFloor (env.rand i) sides + 1).sum : Nat) : Int)
      ∧ (∀ i, 1 ≤ jsRandFloor (env.rand i) sides + 1
          ∧ jsRandFloor (env.rand i) sides + 1 ≤ sides))
    ∧ (∀ env : Env, (2 : Int) ≤ (rollEntry env user "2d6" 2 6).result
        ∧ (rollEntry env user "2d6" 2 6).result ≤ 12)
    ∧ (∀ env : Env, (1 : Int) ≤ (rollEntry env user "d20" 1 20).result
        ∧ (rollEntry env user "d20" 1 20).result ≤ 20)
    ∧ (rollSeq { history := [] } user d envs 501).history.length = 500
    ∧ rollEntry (envs 1) user d count sides
        ∉ (rollSeq { history := [] } user d envs 501).history := by
  have h500 :=
    expectedHist_upto (fun k => rollEntry (envs k) user d count sides) 500
      (by omega)
  have e501 :
      expectedHist (fun k => rollEntry (envs k) user d count sides) 501
        = (rollEntry (envs 501) user d count sides
            :: expectedHist (fun k => rollEntry (envs k) user d count sides)
                500).take 500 := rfl
  refine ⟨?_, ?_, ?_, ?_, ?_⟩
  · intro env
    refine ⟨reduce_roll_eq hparse s user env, ?_, ?_⟩
    · simp [rollEntry, rollResult_eq_sum]
    · exact fun i => draw_bounds (env.rand i) sides hsides
  · intro env
    have hb := rollResult_bounds env.rand 2 6 (by omega)
    refine ⟨?_, ?_⟩ <;> simp only [rollEntry] <;> omega
  · intro env
    have hb := rollResult_bounds env.rand 1 20 (by omega)
    refine ⟨?_, ?_⟩ <;> simp only [rollEntry] <;> omega
  · rw [rollSeq_eq_expected hparse, e501, take500_cons, h500]
    simp only [List.length_cons, List.length_take, List.length_map,
      List.length_range]
    omega
  · intro hmem
    rw [rollSeq_eq_expected hparse, e501, take500_cons, h500] at hmem
    have hr := range_take_succ 499
    norm_num at hr
    rw [← List.map_take, hr] at hmem
    rcases List.mem_cons.mp hmem with h1 | h1
    · have ht := congrArg DiceEntry.timestamp h1
      simp only [rollEntry] at ht
      have := hmono 1 501 (by omega)
      omega
    · rw [List.mem_map] at h1
      obtain ⟨k, hk, heq⟩ := h1
      rw [List.mem_range] at hk
      have ht := congrArg DiceEntry.timestamp heq
      simp only [rollEntry] at ht
      have := hmono 1 (500 - k) (by omega)
      omega

/-- Closed instance of C7: after 501 rolls of `2d6` (clock ticking each
roll), the log holds exactly 500 records. -/
theorem claim_C7_witness :
    (rollSeq { history := [] } none "2d6" rollEnvs 501).history.length
      = 500 :=
  (claim_C7 { history := [] } none "2d6" 2 6 rollEnvs (by decide) (by decide)
    (fun i j h => h)).2.2.2.1

end Minstrels
